import Mathlib

/-!
Verification of the session-handling MCP stdio→HTTP proxy (`mcp-proxy.js`).

The development shallowly embeds the proxy's data model and its three core
functions — `saveSessionToCache`, `fetchMcp`, `ensureUpstreamInitialized`,
`forwardToHttpMcp` — as pure Lean functions.  Network I/O is modelled by an
oracle `Nat → UResp` giving the upstream's answer to the n-th HTTP request
issued by the process, and the JavaScript `JSON.parse` builtin is modelled by
an explicit parameter `JsEnv.parse : String → Option Json` (the proxy never
implements JSON parsing itself; concrete theorems instantiate the parameter
with finite maps that agree with real `JSON.parse` on the strings involved).
-/

namespace McpProxy

/-- JSON values as produced by `JSON.parse`.  Numbers are modelled as
integers (every numeric literal appearing in the proxy's protocol — error
codes such as `-32000` — is integral). -/
inductive Json where
  | null
  | bool (b : Bool)
  | num (n : Int)
  | str (s : String)
  | arr (elems : List Json)
  | obj (fields : List (String × Json))

/-- JavaScript strict equality `===` between two values that originate from
different parses/responses: primitives compare by value; two array or object
values are distinct references and compare unequal (as do mixed types). -/
def jsStrictEq : Json → Json → Bool
  | .null, .null => true
  | .bool a, .bool b => a == b
  | .num a, .num b => a == b
  | .str a, .str b => a == b
  | _, _ => false

/-- `v === n` for an integer literal `n`, on a possibly-undefined value. -/
def isNumEq (j : Option Json) (n : Int) : Bool :=
  match j with
  | some (.num m) => m == n
  | _ => false

/-- JavaScript truthiness of a JSON value (`if (v)`): `null`, `false`, `0`
and `""` are falsy; arrays and objects are always truthy. -/
def jTruthy : Json → Bool
  | .null => false
  | .bool b => b
  | .num n => n != 0
  | .str s => s != ""
  | .arr _ => true
  | .obj _ => true

/-- Property access `v.k` (`undefined`, i.e. `none`, on non-objects). -/
def jGet (j : Json) (k : String) : Option Json :=
  match j with
  | .obj fields => fields.lookup k
  | _ => none

/-- Truthiness of a possibly-undefined value (`if (v?.k)`). -/
def jTruthyOpt : Option Json → Bool
  | some v => jTruthy v
  | none => false

mutual
/-- JavaScript string coercion `String(v)` of a JSON value, as used by
`new Error(v)` and template literals. -/
def jToStr : Json → String
  | .null => "null"
  | .bool b => cond b "true" "false"
  | .num n => toString n
  | .str s => s
  | .arr xs => jToStrList xs
  | .obj _ => "[object Object]"

/-- `Array.prototype.toString`: elements joined by `,`, with `null`
rendered as the empty string. -/
def jToStrList : List Json → String
  | [] => ""
  | [.null] => ""
  | [j] => jToStr j
  | .null :: rest => "," ++ jToStrList rest
  | j :: rest => jToStr j ++ "," ++ jToStrList rest
end

/-- Template-literal coercion of a possibly-undefined value
(`` `${v}` `` renders `undefined` as `"undefined"`). -/
def templateStr : Option Json → String
  | none => "undefined"
  | some v => jToStr v

/-- `pat.isPrefixOf s || ...` scan implementing JavaScript
`String.prototype.includes` on character lists. -/
def hasInfixChars (pat : List Char) : List Char → Bool
  | [] => pat.isEmpty
  | c :: cs => pat.isPrefixOf (c :: cs) || hasInfixChars pat cs

/-- JavaScript `s.includes(pat)`. -/
def strContains (s pat : String) : Bool := hasInfixChars pat.data s.data

/-- JavaScript `s.toLowerCase()` (ASCII; every substring the proxy matches
against is ASCII). -/
def lowerStr (s : String) : String := String.mk (s.data.map Char.toLower)

/-- JavaScript `s.startsWith(pat)`. -/
def strStarts (s pat : String) : Bool := pat.data.isPrefixOf s.data

/-- JavaScript `s.trim()`: strip whitespace from both ends. -/
def jsTrim (s : String) : String :=
  String.mk (((s.data.dropWhile Char.isWhitespace).reverse.dropWhile
    Char.isWhitespace).reverse)

/-- In-memory and on-disk session state of the proxy process:
`upstreamInitialized` and `upstreamSessionId` are the two module-level
variables of `mcp-proxy.js`; `sessionCache` is the content of the
`~/.mcp-session-cache` file (`none` = file absent). -/
structure PState where
  upstreamInitialized : Bool
  upstreamSessionId : Option Json
  sessionCache : Option String

/-- `sessionId === upstreamSessionId` (`null` on the right compares unequal
to any value on the left). -/
def sameSessionId (st : PState) (sessionId : Json) : Bool :=
  match st.upstreamSessionId with
  | some v => jsStrictEq sessionId v
  | none => false

/-- `saveSessionToCache(sessionId)`: ignores falsy or unchanged tokens,
otherwise adopts the token in memory and writes it to the cache file.  For
a non-string token `fs.writeFile` rejects on numbers, booleans and plain
objects (the rejection is swallowed by the `catch`, leaving only memory
updated); the model leaves the cache unchanged for every non-string token —
upstream `sessionId` values are strings, and no theorem below draws a
cache conclusion from a non-string token. -/
def saveSessionToCache (st : PState) (sessionId : Json) : PState :=
  if !jTruthy sessionId then st
  else if sameSessionId st sessionId then st
  else
    match sessionId with
    | .str s => { st with upstreamSessionId := some sessionId, sessionCache := some s }
    | _ => { st with upstreamSessionId := some sessionId }

/-- `clearSessionCache()`: drops the in-memory token, resets the
initialized flag and unlinks the cache file. -/
def clearSessionCache (st : PState) : PState :=
  { st with upstreamSessionId := none, upstreamInitialized := false, sessionCache := none }

/-- A structured error as thrown inside the proxy: an `Error` object with
`message` plus the optional `status`, `code` and `data` properties the
proxy attaches. -/
structure ErrInfo where
  message : String
  status : Option Nat
  code : Option Json
  data : Option Json

/-- `buffer.split("\n")` followed by `buffer = lines.pop()`: the pair of
the complete lines and the trailing unterminated fragment. -/
def splitNlP : List Char → List (List Char) × List Char
  | [] => ([], [])
  | c :: cs =>
    let r := splitNlP cs
    if c = '\n' then ([] :: r.1, r.2)
    else
      match r.1 with
      | [] => ([], c :: r.2)
      | l :: ls => ((c :: l) :: ls, r.2)

/-- The modelled `JSON.parse` builtin of the JavaScript runtime: `none`
when `JSON.parse` throws, and the message of the rejection produced by
`res.json()` on unparseable input. -/
structure JsEnv where
  parse : String → Option Json
  parseErrMsg : String → String

/-- A resolved HTTP response as observed by the proxy: `ok`/`status` from
the status line, the `mcp-session-id` and `content-type` headers, and the
body as the sequence of chunks delivered by the reader (the full body text
is their concatenation). -/
structure Resp where
  ok : Bool
  status : Nat
  headerSession : Option String
  contentType : String
  chunks : List String

/-- `await res.text()` / the text that `res.json()` parses: the whole body. -/
def bodyText (r : Resp) : String := String.join r.chunks

/-- `data.result?.sessionId`: `undefined` unless `result` is an object with
the field. -/
def sessionIdOf (data : Json) : Option Json :=
  match jGet data "result" with
  | some (.obj fields) => fields.lookup "sessionId"
  | _ => none

/-- `if (data.result?.sessionId) await saveSessionToCache(...)`. -/
def applyBodySession (st : PState) (data : Json) : PState :=
  match sessionIdOf data with
  | some sid => if jTruthy sid then saveSessionToCache st sid else st
  | none => st

/-- Capture of the `mcp-session-id` response header, performed before any
status or body inspection. -/
def headerCapture (st : PState) (r : Resp) : PState :=
  match r.headerSession with
  | some s => if s ≠ "" then saveSessionToCache st (.str s) else st
  | none => st

/-- The error thrown on a non-2xx response: message from the parsed body's
`error.message` when truthy, otherwise `"Upstream error <status>: <text>"`;
`err.status` is the HTTP status and `err.code` the body's `error.code`. -/
def httpError (env : JsEnv) (r : Resp) : ErrInfo :=
  let text := bodyText r
  let errObj := (env.parse text).bind (fun d => jGet d "error")
  let msgVal := errObj.bind (fun e => jGet e "message")
  let message :=
    match msgVal with
    | some v =>
      if jTruthy v then jToStr v
      else "Upstream error " ++ toString r.status ++ ": " ++ text
    | none => "Upstream error " ++ toString r.status ++ ": " ++ text
  ⟨message, some r.status, errObj.bind (fun e => jGet e "code"), none⟩

/-- The protocol error thrown when the event stream ends without a
terminal record. -/
def sseEndedErr : ErrInfo :=
  ⟨"Upstream SSE stream ended without a result", none, none, none⟩

/-- Outcome of the `for (const line of lines)` loop over the complete lines
of one chunk: either a terminal record was found (the stream is cancelled
and its payload returned) or processing continues with the updated state. -/
inductive LineStep where
  | found (st : PState) (payload : Json)
  | cont (st : PState)

/-- The body of the line loop: for each `"data: "`-prefixed line, parse the
payload (a parse failure is swallowed by the empty `catch`), adopt a truthy
`result.sessionId`, and stop at the first record whose `result` or `error`
field is truthy. -/
def processLines (env : JsEnv) : PState → List String → LineStep
  | st, [] => .cont st
  | st, line :: rest =>
    if strStarts line "data: " then
      match env.parse (jsTrim (line.drop 6)) with
      | some data =>
        let st' := applyBodySession st data
        if jTruthyOpt (jGet data "result") || jTruthyOpt (jGet data "error") then
          .found st' data
        else processLines env st' rest
      | none => processLines env st rest
    else processLines env st rest

/-- The payload of a line-scanner outcome (`none` while scanning
continues). -/
def lineStepPayload : LineStep → Option Json
  | .found _ p => some p
  | .cont _ => none

/-- The state carried by a line-scanner outcome. -/
def lineStepState : LineStep → PState
  | .found st _ => st
  | .cont st => st

/-- The `while (true)` read loop of the event-stream branch: append the
chunk to the buffer, split on newlines keeping the unterminated tail, and
scan the complete lines; when the reader is exhausted without a terminal
record, throw `sseEndedErr`. -/
def streamRead (env : JsEnv) (st : PState) (buffer : List Char) :
    List String → Except ErrInfo Json × PState
  | [] => (.error sseEndedErr, st)
  | chunk :: rest =>
    let parts := splitNlP (buffer ++ chunk.data)
    match processLines env st (parts.1.map String.mk) with
    | .found st' payload => (.ok payload, st')
    | .cont st' => streamRead env st' parts.2 rest

/-- `fetchMcp(url, body)` applied to the response the upstream returns:
header session capture, then the non-2xx error path, then the
event-stream or plain-JSON body reader. -/
def fetchMcp (env : JsEnv) (st : PState) (r : Resp) : Except ErrInfo Json × PState :=
  let st1 := headerCapture st r
  if !r.ok then
    (.error (httpError env r), st1)
  else if strContains r.contentType "text/event-stream" then
    streamRead env st1 [] r.chunks
  else
    match env.parse (bodyText r) with
    | none => (.error ⟨env.parseErrMsg (bodyText r), none, none, none⟩, st1)
    | some data => (.ok data, applyBodySession st1 data)

/-! ## Request construction (headers, timeout surface)

`fetchMcp` builds its request from the configured auth value and the current
session token (lines 74–92 of the source).  The configured `TIMEOUT_MS`
(`Number(process.env.MCP_TIMEOUT_MS || "15000")`) is modelled as part of the
configuration; the options object passed to `fetch` is modelled with an
explicit `abortSignal` field so that the absence of any abort/timeout wiring
is a provable property of the construction. -/

/-- Environment-derived configuration: `UPSTREAM_AUTH` and `MCP_TIMEOUT_MS`. -/
structure Config where
  upstreamAuth : String
  timeoutMs : Nat

/-- The default of `MCP_TIMEOUT_MS` when the variable is unset or empty. -/
def defaultTimeoutMs : Nat := 15000

/-- The headers object of `fetchMcp` (also rebuilt verbatim for the
`notifications/initialized` fetches): content type, accept preference,
optional `Authorization`, and `Mcp-Session-Id` when a truthy token exists. -/
def mkHeaders (cfg : Config) (session : Option Json) : List (String × String) :=
  [("Content-Type", "application/json"),
   ("Accept", "application/json, text/event-stream")]
  ++ (if cfg.upstreamAuth ≠ "" then [("Authorization", cfg.upstreamAuth)] else [])
  ++ (match session with
      | some j => if jTruthy j then [("Mcp-Session-Id", jToStr j)] else []
      | none => [])

/-- The options object passed to `fetch`: `abortSignal` would hold the
milliseconds of an `AbortController`-based timeout if one were wired in. -/
structure FetchOptions where
  httpMethod : String
  headers : List (String × String)
  bodyJson : Json
  abortSignal : Option Nat

/-- The options `fetchMcp` passes to `fetch` (source lines 88–92): method,
headers and body only — no abort signal is created or attached. -/
def mkFetchOptions (cfg : Config) (session : Option Json) (body : Json) : FetchOptions :=
  { httpMethod := "POST", headers := mkHeaders cfg session, bodyJson := body,
    abortSignal := none }

/-! ## Session-error classification

The proxy classifies failures at three places, each with its own inline
test (source lines 233–239, 288–292 and 311–316). -/

/-- `(err.message || "").toLowerCase()` for a thrown error (`message` is a
genuine string on every error the proxy constructs). -/
def lowerMsg (e : ErrInfo) : String := lowerStr e.message

/-- `(data.error.message || "")`: the raw message string of an error
envelope (empty when falsy or absent). -/
def errMessageOf (errObj : Json) : String :=
  match jGet errObj "message" with
  | some v => if jTruthy v then jToStr v else ""
  | none => ""

/-- The handshake-path session test (source lines 239): message contains
`"not initialized"` or `"session"`, or HTTP status 401/406. -/
def initSessionTest (e : ErrInfo) : Bool :=
  strContains (lowerMsg e) "not initialized" || strContains (lowerMsg e) "session"
    || e.status == some 401 || e.status == some 406

/-- The forward-path test for an error *envelope* (source lines 288–292):
message contains `"not initialized"`, `"session"` or `"expired"`, or the
error code is the sentinel `-32000`. -/
def envelopeSessionTest (errObj : Json) : Bool :=
  let m := lowerStr (errMessageOf errObj)
  strContains m "not initialized" || strContains m "session" || strContains m "expired"
    || isNumEq (jGet errObj "code") (-32000)

/-- The forward-path test for a *thrown* error (source lines 311–316):
message contains one of the three substrings, or HTTP status 401/406. -/
def catchSessionTest (e : ErrInfo) : Bool :=
  strContains (lowerMsg e) "not initialized" || strContains (lowerMsg e) "session"
    || strContains (lowerMsg e) "expired" || e.status == some 401 || e.status == some 406

/-! ## The request bridge over an upstream oracle

`ensureUpstreamInitialized` and `forwardToHttpMcp` are driven by an oracle
`Nat → UResp` assigning to the n-th HTTP request issued by the process the
upstream's answer: either a network-level rejection of `fetch` itself or a
resolved response. -/

/-- Outcome of one `fetch` as seen by the proxy. -/
inductive UResp where
  | netErr (e : ErrInfo)
  | resp (r : Resp)

/-- Observable request events, each recording the `Mcp-Session-Id` value
attached to the outgoing request (`none` when no truthy token was held). -/
inductive Ev where
  | handshake (sid : Option Json)
  | notify (sid : Option Json)
  | send (sid : Option Json)

/-- The session token a request would carry (the truthy check of the
header construction). -/
def reqSession (st : PState) : Option Json :=
  match st.upstreamSessionId with
  | some j => if jTruthy j then some j else none
  | none => none

/-- Process state together with the oracle cursor and the log of issued
requests. -/
structure Trace where
  st : PState
  idx : Nat
  events : List Ev

/-- One `fetchMcp` call against the oracle: consumes the next response,
logs the event, and either propagates the network rejection or runs the
response through `fetchMcp`. -/
def callFetch (env : JsEnv) (o : Nat → UResp) (tr : Trace) (mk : Option Json → Ev) :
    Except ErrInfo Json × Trace :=
  let ev := mk (reqSession tr.st)
  match o tr.idx with
  | .netErr e => (.error e, ⟨tr.st, tr.idx + 1, tr.events ++ [ev]⟩)
  | .resp r =>
    let (res, st') := fetchMcp env tr.st r
    (res, ⟨st', tr.idx + 1, tr.events ++ [ev]⟩)

/-- One plain `fetch` of the `notifications/initialized` notification: the
response is never read; only a network-level rejection is observable. -/
def callNotify (o : Nat → UResp) (tr : Trace) : Except ErrInfo Unit × Trace :=
  let ev := Ev.notify (reqSession tr.st)
  match o tr.idx with
  | .netErr e => (.error e, ⟨tr.st, tr.idx + 1, tr.events ++ [ev]⟩)
  | .resp _ => (.ok (), ⟨tr.st, tr.idx + 1, tr.events ++ [ev]⟩)

/-- `upstreamInitialized = true`. -/
def setInitialized (tr : Trace) : Trace :=
  { tr with st := { tr.st with upstreamInitialized := true } }

/-- The memory clearing of the handshake retry (source lines 241–242):
token and flag dropped, the cache file left untouched. -/
def clearMemory (tr : Trace) : Trace :=
  { tr with st := { tr.st with upstreamSessionId := none, upstreamInitialized := false } }

/-- `if (data.error)`: the truthy `error` field of an envelope. -/
def errorFieldTruthy (data : Json) : Option Json :=
  match jGet data "error" with
  | some v => if jTruthy v then some v else none
  | none => none

/-- The `catch` block of `ensureUpstreamInitialized` (source lines
229–267): treat "already initialized" as success, retry the handshake once
on a session-classified failure (a failure of the retry propagates), and
propagate anything else. -/
def initCatch (env : JsEnv) (o : Nat → UResp) (tr : Trace) (e : ErrInfo) :
    Except ErrInfo Unit × Trace :=
  if strContains (lowerMsg e) "already initialized" then
    (.ok (), setInitialized tr)
  else if initSessionTest e then
    let tr1 := clearMemory tr
    match callFetch env o tr1 Ev.handshake with
    | (.error e2, tr2) => (.error e2, tr2)
    | (.ok retryData, tr2) =>
      match errorFieldTruthy retryData with
      | some errObj =>
        (.error ⟨"Upstream Init Retry error: " ++ templateStr (jGet errObj "message"),
                 none, none, none⟩, tr2)
      | none =>
        match callNotify o tr2 with
        | (.error e3, tr3) => (.error e3, tr3)
        | (.ok (), tr3) => (.ok (), setInitialized tr3)
  else (.error e, tr)

/-- `ensureUpstreamInitialized()` (source lines 174–268): a no-op once the
flag is set; otherwise one `initialize` request, with an error envelope
rethrown as `"Upstream Init error: <message>"` into the catch block, and on
success the `notifications/initialized` fetch before setting the flag. -/
def ensureUpstreamInitialized (env : JsEnv) (o : Nat → UResp) (tr : Trace) :
    Except ErrInfo Unit × Trace :=
  if tr.st.upstreamInitialized then (.ok (), tr)
  else
    match callFetch env o tr Ev.handshake with
    | (.error e, tr1) => initCatch env o tr1 e
    | (.ok data, tr1) =>
      match errorFieldTruthy data with
      | some errObj =>
        let m := lowerStr (errMessageOf errObj)
        if strContains m "already initialized" || strContains m "already started" then
          (.ok (), setInitialized tr1)
        else
          initCatch env o tr1
            ⟨"Upstream Init error: " ++ templateStr (jGet errObj "message"),
             none, none, none⟩
      | none =>
        match callNotify o tr1 with
        | (.error e, tr2) => initCatch env o tr2 e
        | (.ok (), tr2) => (.ok (), setInitialized tr2)

/-- The terminal error object built from an error envelope (source lines
301–304): `new Error(message || "Unknown upstream error")` with `code` and
`data` copied only when truthy. -/
def envelopeErr (errObj : Json) : ErrInfo :=
  let msg :=
    match jGet errObj "message" with
    | some v => if jTruthy v then jToStr v else "Unknown upstream error"
    | none => "Unknown upstream error"
  let code :=
    match jGet errObj "code" with
    | some v => if jTruthy v then some v else none
    | none => none
  let data :=
    match jGet errObj "data" with
    | some v => if jTruthy v then some v else none
    | none => none
  ⟨msg, none, code, data⟩

/-- One attempt of `forwardToHttpMcp` (source lines 270–328), with the
behaviour of the recursive call `forwardToHttpMcp(method, params,
retryCount + 1)` supplied as `sessionRetry` (`none` when `retryCount < 1`
fails, so that a session-classified error is not retried).  The `try` block
contains the send, the envelope-classified retry — a recursive call whose
failure is caught by this same call's own `catch`! — and the terminal
`throw`; the `catch` block classifies whatever reached it and may retry
once more.  `await clearSessionCache()` precedes each retry. -/
def forwardAttempt (env : JsEnv) (o : Nat → UResp)
    (sessionRetry : Option (Trace → Except ErrInfo (Option Json) × Trace)) (tr : Trace) :
    Except ErrInfo (Option Json) × Trace :=
  match ensureUpstreamInitialized env o tr with
  | (.error e, tr1) => (.error e, tr1)
  | (.ok (), tr1) =>
    let tryOut : Except ErrInfo (Option Json) × Trace :=
      match callFetch env o tr1 Ev.send with
      | (.error e, tr2) => (.error e, tr2)
      | (.ok data, tr2) =>
        match errorFieldTruthy data with
        | some errObj =>
          match sessionRetry with
          | some retry =>
            if envelopeSessionTest errObj then
              retry { tr2 with st := clearSessionCache tr2.st }
            else (.error (envelopeErr errObj), tr2)
          | none => (.error (envelopeErr errObj), tr2)
        | none => (.ok (jGet data "result"), tr2)
    match tryOut with
    | (.ok v, tr3) => (.ok v, tr3)
    | (.error e, tr3) =>
      match sessionRetry with
      | some retry =>
        if catchSessionTest e then
          retry { tr3 with st := clearSessionCache tr3.st }
        else (.error e, tr3)
      | none => (.error e, tr3)

/-- `forwardToHttpMcp(method, params, retryCount)`: since the guard
`retryCount < 1` permits recursion only from `retryCount = 0` to
`retryCount = 1`, and the `retryCount = 1` attempt can never retry again,
the call is one `forwardAttempt` whose retry continuation (present exactly
when `retryCount < 1`) is the retry-exhausted attempt. -/
def forwardToHttpMcp (env : JsEnv) (o : Nat → UResp) (retryCount : Nat) (tr : Trace) :
    Except ErrInfo (Option Json) × Trace :=
  forwardAttempt env o
    (if retryCount < 1 then some (forwardAttempt env o none) else none) tr

/-- Count of `initialize` handshake requests in an event log. -/
def countHandshakes (evs : List Ev) : Nat :=
  evs.countP (fun e => match e with | .handshake _ => true | _ => false)

/-- Count of forwarded-request sends in an event log. -/
def countSends (evs : List Ev) : Nat :=
  evs.countP (fun e => match e with | .send _ => true | _ => false)

/-- `n` sequential forwarded calls (each entered with `retryCount = 0`, as
every registered handler does), threading the process state. -/
def runCalls (env : JsEnv) (o : Nat → UResp) : Nat → Trace → Trace
  | 0, tr => tr
  | n + 1, tr => runCalls env o n (forwardToHttpMcp env o 0 tr).2

/-! ## Specification-side characterisations of the stream reader -/

/-- Prepending an unterminated fragment to a split: the fragment fuses with
the first complete line of the continuation (or with its trailing fragment
when no line is complete). -/
def glue (p : List Char) (r : List (List Char) × List Char) :
    List (List Char) × List Char :=
  match r.1 with
  | [] => ([], p ++ r.2)
  | l :: ls => ((p ++ l) :: ls, r.2)

/-- The concatenated body delivered by a chunk sequence. -/
def joinData (chunks : List String) : List Char := (chunks.map String.data).flatten

/-- The complete (newline-terminated) lines of a chunk sequence — exactly
the lines the read loop ever passes to its line scanner; the trailing
unterminated fragment is discarded when the stream ends. -/
def completeLines (chunks : List String) : List String :=
  (splitNlP (joinData chunks)).1.map String.mk

/-- The payload a line contributes as a terminal answer: its parsed JSON
when the line carries the `"data: "` marker, parses, and has a truthy
`result` or `error` field; `none` otherwise. -/
def terminalPayload (parse : String → Option Json) (line : String) : Option Json :=
  if strStarts line "data: " then
    match parse (jsTrim (line.drop 6)) with
    | some p =>
      if jTruthyOpt (jGet p "result") || jTruthyOpt (jGet p "error") then some p
      else none
    | none => none
  else none

/-- A line that cannot adopt a session token: either not a data record, or
unparseable, or without a truthy `result.sessionId`. -/
def lineSidFree (parse : String → Option Json) (line : String) : Bool :=
  if strStarts line "data: " then
    match parse (jsTrim (line.drop 6)) with
    | some p => !jTruthyOpt (sessionIdOf p)
    | none => true
  else true

/-- A response whose body can never adopt a session token (so that only the
header capture can change the session). -/
def bodySessionFree (env : JsEnv) (r : Resp) : Bool :=
  if !r.ok then true
  else if strContains r.contentType "text/event-stream" then
    (completeLines r.chunks).all (lineSidFree env.parse)
  else
    match env.parse (bodyText r) with
    | some d => !jTruthyOpt (sessionIdOf d)
    | none => true

/-- Modelled from the spec: the uniform error-classification rule of §4.3 —
HTTP status 401 or 406, or a message containing (case-insensitively)
"session", "not initialized" or "expired", or the sentinel application
error code `-32000`.  Stated for comparison with the three per-site tests
the source actually uses. -/
def specSessionError (e : ErrInfo) : Bool :=
  e.status == some 401 || e.status == some 406
    || strContains (lowerMsg e) "session" || strContains (lowerMsg e) "not initialized"
    || strContains (lowerMsg e) "expired" || isNumEq e.code (-32000)

/-! ## Concurrent initialization model

Two client tasks each run `ensureUpstreamInitialized` under the
single-threaded cooperative scheduler: the code between two `await` points
executes atomically, and the guard is the unguarded module variable
`upstreamInitialized`.  A task therefore has three await points: the
synchronous prefix up to issuing the `initialize` fetch, the arrival of its
response, and the resolution of the `notifications/initialized` fetch
(which is when the flag is finally set). -/

/-- Program counter of one task running the handshake. -/
inductive TaskPc where
  | start
  | awaitInit
  | awaitNotify
  | taskDone (didHandshake : Bool)

/-- Shared flag, both tasks' counters, and the log of `initialize`
requests issued (by task index). -/
structure CState where
  flag : Bool
  pc1 : TaskPc
  pc2 : TaskPc
  log : List (Fin 2)

/-- One scheduling step of task `i`: from `start`, check the flag — if set,
finish without a handshake, otherwise issue the `initialize` request; the
response hands over to the notification; its resolution sets the flag. -/
def stepTask (pc : TaskPc) (flag : Bool) (i : Fin 2) (log : List (Fin 2)) :
    TaskPc × Bool × List (Fin 2) :=
  match pc with
  | .start => if flag then (.taskDone false, flag, log) else (.awaitInit, flag, log ++ [i])
  | .awaitInit => (.awaitNotify, flag, log)
  | .awaitNotify => (.taskDone true, true, log)
  | .taskDone b => (.taskDone b, flag, log)

/-- Scheduler step: `false` advances task 1, `true` advances task 2. -/
def stepC (s : CState) (which : Bool) : CState :=
  if which then
    let (pc, flag, log) := stepTask s.pc2 s.flag 1 s.log
    { s with pc2 := pc, flag := flag, log := log }
  else
    let (pc, flag, log) := stepTask s.pc1 s.flag 0 s.log
    { s with pc1 := pc, flag := flag, log := log }

/-- Run a schedule. -/
def runSched : List Bool → CState → CState
  | [], s => s
  | b :: bs, s => runSched bs (stepC s b)

/-- Both tasks pending, flag clear, no requests issued. -/
def cInit : CState := ⟨false, .start, .start, []⟩

/-- Number of `initialize` requests currently in flight. -/
def inflight (s : CState) : Nat :=
  (match s.pc1 with | .awaitInit => 1 | _ => 0)
    + (match s.pc2 with | .awaitInit => 1 | _ => 0)

/-! ## Concrete fixtures

Each fixture's `parse` function is a finite map agreeing with the
JavaScript `JSON.parse` on the strings involved. -/

/-- `\x7b"result":\x7b\x7d\x7d` — a minimal successful envelope. -/
def okInitText : String := "\x7b\x22result\x22:\x7b\x7d\x7d"

/-- Parsed form of `okInitText`. -/
def okInitJson : Json := .obj [("result", .obj [])]

/-- A session-classified error envelope (sentinel code and "session
expired" message). -/
def sessErrText : String :=
  "\x7b\x22error\x22:\x7b\x22code\x22:-32000,\x22message\x22:\x22session expired\x22\x7d\x7d"

/-- Parsed form of `sessErrText`. -/
def sessErrJson : Json :=
  .obj [("error", .obj [("code", .num (-32000)), ("message", .str "session expired")])]

/-- A non-session error envelope (code `-32601`, "method not found"). -/
def mnfText : String :=
  "\x7b\x22error\x22:\x7b\x22code\x22:-32601,\x22message\x22:\x22method not found\x22\x7d\x7d"

/-- Parsed form of `mnfText`. -/
def mnfJson : Json :=
  .obj [("error", .obj [("code", .num (-32601)), ("message", .str "method not found")])]

/-- An error envelope with no `result` (used as a plain-JSON error body). -/
def errBodyText : String := "\x7b\x22error\x22:\x7b\x22code\x22:-32000,\x22message\x22:\x22bad\x22\x7d\x7d"

/-- Parsed form of `errBodyText`. -/
def errBodyJson : Json :=
  .obj [("error", .obj [("code", .num (-32000)), ("message", .str "bad")])]

/-- A successful envelope carrying a body session token `"S1"`. -/
def sidBodyText : String := "\x7b\x22result\x22:\x7b\x22sessionId\x22:\x22S1\x22\x7d\x7d"

/-- Parsed form of `sidBodyText`. -/
def sidBodyJson : Json := .obj [("result", .obj [("sessionId", .str "S1")])]

/-- An envelope with a *falsy* `result` (`0`). -/
def falsyResultText : String := "\x7b\x22result\x22:0\x7d"

/-- Parsed form of `falsyResultText`. -/
def falsyResultJson : Json := .obj [("result", .num 0)]

/-- An envelope with `result` `1`. -/
def oneResultText : String := "\x7b\x22result\x22:1\x7d"

/-- Parsed form of `oneResultText`. -/
def oneResultJson : Json := .obj [("result", .num 1)]

/-- The spec's stream-reconstruction payload
`\x7b"jsonrpc":"2.0","id":"1","result":\x7b"foo":1\x7d\x7d`. -/
def fooText : String :=
  "\x7b\x22jsonrpc\x22:\x222.0\x22,\x22id\x22:\x221\x22,\x22result\x22:\x7b\x22foo\x22:1\x7d\x7d"

/-- Parsed form of `fooText`. -/
def fooJson : Json :=
  .obj [("jsonrpc", .str "2.0"), ("id", .str "1"), ("result", .obj [("foo", .num 1)])]

/-- An error envelope whose `message` and `code` are both falsy
(`""` and `0`). -/
def falsyErrText : String := "\x7b\x22error\x22:\x7b\x22code\x22:0,\x22message\x22:\x22\x22\x7d\x7d"

/-- Parsed form of `falsyErrText`. -/
def falsyErrJson : Json :=
  .obj [("error", .obj [("code", .num 0), ("message", .str "")])]

/-- The finite `JSON.parse` fragment covering all fixture strings. -/
def fixtureParse : String → Option Json := fun s =>
  if s = okInitText then some okInitJson
  else if s = sessErrText then some sessErrJson
  else if s = mnfText then some mnfJson
  else if s = errBodyText then some errBodyJson
  else if s = sidBodyText then some sidBodyJson
  else if s = falsyResultText then some falsyResultJson
  else if s = oneResultText then some oneResultJson
  else if s = fooText then some fooJson
  else if s = falsyErrText then some falsyErrJson
  else none

/-- The runtime environment used by all fixtures. -/
def fixtureEnv : JsEnv := ⟨fixtureParse, fun _ => "Unexpected token"⟩

/-- An `ok` plain-JSON response with the given body and no session header. -/
def jsonResp (text : String) : UResp :=
  .resp ⟨true, 200, none, "application/json", [text]⟩

/-- A fresh process state: flag clear, no token, no cache file. -/
def freshTrace : Trace := ⟨⟨false, none, none⟩, 0, []⟩

/-- Oracle for the retry-bound scenario: every handshake succeeds and every
forwarded send answers with the session-classified error envelope
(handshake, notification and send responses in the order the proxy issues
them). -/
def c1Oracle : Nat → UResp := fun n =>
  ([jsonResp okInitText, jsonResp okInitText,
    jsonResp sessErrText,
    jsonResp okInitText, jsonResp okInitText,
    jsonResp sessErrText,
    jsonResp okInitText, jsonResp okInitText,
    jsonResp sessErrText]).getD n (jsonResp okInitText)

/-- Oracle answering every request with the minimal successful envelope. -/
def neutralOracle : Nat → UResp := fun _ => jsonResp okInitText

/-- Oracle answering every request with the non-session error envelope. -/
def mnfOracle : Nat → UResp := fun _ => jsonResp mnfText

/-- Oracle rejecting every `fetch` with a network-level error. -/
def netErrOracle : Nat → UResp := fun _ => .netErr ⟨"boom", none, none, none⟩

/-- Oracle rejecting every `fetch` with a session-classified network
error. -/
def sessNetOracle : Nat → UResp := fun _ => .netErr ⟨"session expired", none, none, none⟩

/-- Oracle answering every request with the session-classified error
envelope. -/
def sessErrOracle : Nat → UResp := fun _ => jsonResp sessErrText

/-- Oracle answering every request with the falsy-field error envelope. -/
def falsyErrOracle : Nat → UResp := fun _ => jsonResp falsyErrText

/-- Oracle for the retry recovery scenario: the first send rejects with a
session-classified network error, the re-handshake and its notification
succeed, and the resent request rejects with a second session-classified
network error. -/
def c5RetryOracle : Nat → UResp := fun n =>
  ([UResp.netErr ⟨"session expired", none, none, none⟩,
    jsonResp okInitText, jsonResp okInitText,
    .netErr ⟨"session lost", none, none, none⟩]).getD n (jsonResp okInitText)

/-- Oracle for the handshake-retry scenario: the first `initialize`
rejects with a session-classified network error and the retried
`initialize` answers with the non-session error envelope. -/
def c5InitRetryOracle : Nat → UResp := fun n =>
  ([UResp.netErr ⟨"session expired", none, none, none⟩,
    jsonResp mnfText]).getD n (jsonResp okInitText)

/-- A process state whose session is already initialized (no token). -/
def readyTrace : Trace := ⟨⟨true, none, none⟩, 0, []⟩

/-- The falsy-`result` event-stream response, one record then end of
stream. -/
def falsyStreamResp : Resp :=
  ⟨true, 200, none, "text/event-stream", ["data: " ++ falsyResultText ++ "\n\n"]⟩

/-- An event stream with a malformed record followed by a well-formed
terminal record. -/
def malformedStreamResp : Resp :=
  ⟨true, 200, none, "text/event-stream", ["data: notjson\n", "data: " ++ oneResultText ++ "\n"]⟩

/-- The same stream without the malformed record. -/
def cleanStreamResp : Resp :=
  ⟨true, 200, none, "text/event-stream", ["data: " ++ oneResultText ++ "\n"]⟩

/-- The spec's two-chunk stream-reconstruction response: the record is cut
mid-way through the word `result`. -/
def twoChunkResp : Resp :=
  ⟨true, 200, none, "text/event-stream",
   ["data: \x7b\x22jsonrpc\x22:\x222.0\x22,\x22id\x22:\x221\x22,\x22resu",
    "lt\x22:\x7b\x22foo\x22:1\x7d\x7d\n\n"]⟩

/-- A plain-JSON error-envelope response carrying a new session header
token `"tok2"`. -/
def hdrErrResp : Resp := ⟨true, 200, some "tok2", "application/json", [errBodyText]⟩

/-- A plain-JSON response whose body carries `result.sessionId = "S1"`. -/
def sidBodyResp : Resp := ⟨true, 200, none, "application/json", [sidBodyText]⟩

/-- An event-stream response whose single record carries
`result.sessionId = "S1"`. -/
def sidStreamResp : Resp :=
  ⟨true, 200, none, "text/event-stream", ["data: " ++ sidBodyText ++ "\n"]⟩

/-! ## Lemmas about the split-and-buffer line reassembly -/

theorem glue_nil (r : List (List Char) × List Char) : glue [] r = r := by
  obtain ⟨a, b⟩ := r
  cases a <;> simp [glue]

theorem splitNlP_append (a b : List Char) :
    splitNlP (a ++ b) =
      ((splitNlP a).1 ++ (glue (splitNlP a).2 (splitNlP b)).1,
       (glue (splitNlP a).2 (splitNlP b)).2) := by
  induction a with
  | nil => simp [splitNlP, glue_nil]
  | cons c a ih =>
    show splitNlP (c :: (a ++ b)) = _
    by_cases hc : c = '\n'
    · subst hc
      simp only [splitNlP, ih]
      simp
    · simp only [splitNlP, ih, if_neg hc]
      rcases ha : (splitNlP a).1 with _ | ⟨l, ls⟩
      · rcases hb : (splitNlP b).1 with _ | ⟨m, ms⟩ <;>
          simp [glue, ha, hb, if_neg hc]
      · simp [glue, ha, if_neg hc]

theorem splitNlP_frag_noNl (s : List Char) : '\n' ∉ (splitNlP s).2 := by
  induction s with
  | nil => simp [splitNlP]
  | cons c s ih =>
    by_cases hc : c = '\n'
    · subst hc; simpa [splitNlP] using ih
    · simp only [splitNlP, if_neg hc]
      rcases hs : (splitNlP s).1 with _ | ⟨l, ls⟩
      · simp only [hs]
        intro h
        rcases List.mem_cons.mp h with h | h
        · exact hc h.symm
        · exact ih h
      · simpa [hs] using ih

theorem splitNlP_of_noNl (s : List Char) (h : '\n' ∉ s) : splitNlP s = ([], s) := by
  induction s with
  | nil => simp [splitNlP]
  | cons c s ih =>
    have hc : c ≠ '\n' := fun hcc => h (hcc ▸ List.mem_cons_self c s)
    have hs : '\n' ∉ s := fun hins => h (List.mem_cons_of_mem c hins)
    simp [splitNlP, if_neg (fun hcc => hc hcc), ih hs]

/-! ## Lemmas about the line scanner -/

theorem applyBodySession_free (st : PState) (data : Json)
    (h : jTruthyOpt (sessionIdOf data) = false) : applyBodySession st data = st := by
  unfold applyBodySession
  cases hs : sessionIdOf data with
  | none => rfl
  | some sid =>
    rw [hs] at h
    simp only [jTruthyOpt] at h
    simp [h]

theorem processLines_append (env : JsEnv) (st : PState) (xs ys : List String) :
    processLines env st (xs ++ ys) =
      match processLines env st xs with
      | .found st' p => .found st' p
      | .cont st' => processLines env st' ys := by
  induction xs generalizing st with
  | nil => simp [processLines]
  | cons line rest ih =>
    show processLines env st (line :: (rest ++ ys)) = _
    by_cases hd : strStarts line "data: " = true
    · cases hp : env.parse (jsTrim (line.drop 6)) with
      | none => simp [processLines, hd, hp, ih]
      | some data =>
        by_cases ht :
            (jTruthyOpt (jGet data "result") || jTruthyOpt (jGet data "error")) = true
        · simp [processLines, hd, hp, ht]
        · simp [processLines, hd, hp, ht, ih]
    · simp [processLines, hd, ih]

theorem processLines_payload (env : JsEnv) (st : PState) (lines : List String) :
    lineStepPayload (processLines env st lines) =
      lines.findSome? (terminalPayload env.parse) := by
  induction lines generalizing st with
  | nil => simp [processLines, lineStepPayload]
  | cons line rest ih =>
    by_cases hd : strStarts line "data: " = true
    · cases hp : env.parse (jsTrim (line.drop 6)) with
      | none => simp [processLines, hd, hp, terminalPayload, ih]
      | some data =>
        by_cases ht :
            (jTruthyOpt (jGet data "result") || jTruthyOpt (jGet data "error")) = true
        · simp [processLines, hd, hp, ht, terminalPayload, lineStepPayload]
        · simp [processLines, hd, hp, ht, terminalPayload, ih]
    · simp [processLines, hd, terminalPayload, ih]

theorem processLines_state (env : JsEnv) (st : PState) (lines : List String)
    (h : ∀ l ∈ lines, lineSidFree env.parse l = true) :
    lineStepState (processLines env st lines) = st := by
  induction lines generalizing st with
  | nil => simp [processLines, lineStepState]
  | cons line rest ih =>
    have hline := h line (List.mem_cons_self _ _)
    have hrest : ∀ l ∈ rest, lineSidFree env.parse l = true :=
      fun l hl => h l (List.mem_cons_of_mem _ hl)
    by_cases hd : strStarts line "data: " = true
    · cases hp : env.parse (jsTrim (line.drop 6)) with
      | none => simp [processLines, hd, hp, ih _ hrest]
      | some data =>
        have hsid : jTruthyOpt (sessionIdOf data) = false := by
          have := hline
          simp only [lineSidFree, hd, if_pos, hp, Bool.not_eq_true'] at this
          exact this
        by_cases ht :
            (jTruthyOpt (jGet data "result") || jTruthyOpt (jGet data "error")) = true
        · simp [processLines, hd, hp, ht, lineStepState, applyBodySession_free st data hsid]
        · simp [processLines, hd, hp, ht, applyBodySession_free st data hsid, ih _ hrest]
    · simp [processLines, hd, ih _ hrest]

theorem processLines_cont (env : JsEnv) (st : PState) (lines : List String)
    (h : ∀ l ∈ lines,
      terminalPayload env.parse l = none ∧ lineSidFree env.parse l = true) :
    processLines env st lines = .cont st := by
  induction lines generalizing st with
  | nil => simp [processLines]
  | cons line rest ih =>
    obtain ⟨hterm, hfree⟩ := h line (List.mem_cons_self _ _)
    have hrest : ∀ l ∈ rest,
        terminalPayload env.parse l = none ∧ lineSidFree env.parse l = true :=
      fun l hl => h l (List.mem_cons_of_mem _ hl)
    by_cases hd : strStarts line "data: " = true
    · cases hp : env.parse (jsTrim (line.drop 6)) with
      | none => simp [processLines, hd, hp, ih _ hrest]
      | some data =>
        have hsid : jTruthyOpt (sessionIdOf data) = false := by
          have := hfree
          simp only [lineSidFree, hd, if_pos, hp, Bool.not_eq_true'] at this
          exact this
        have ht :
            (jTruthyOpt (jGet data "result") || jTruthyOpt (jGet data "error")) = false := by
          have := hterm
          simp only [terminalPayload, hd, if_pos, hp] at this
          by_cases hb :
              (jTruthyOpt (jGet data "result") || jTruthyOpt (jGet data "error")) = true
          · rw [if_pos hb] at this; exact absurd this (by simp)
          · exact Bool.not_eq_true _ ▸ (by simpa using hb)
        simp [processLines, hd, hp, ht, applyBodySession_free st data hsid, ih _ hrest]
    · simp [processLines, hd, ih _ hrest]

/-! ## The stream reader over reassembled lines -/

theorem joinData_cons (ch : String) (rest : List String) :
    joinData (ch :: rest) = ch.data ++ joinData rest := by
  simp [joinData]

theorem streamRead_eq (env : JsEnv) (st : PState) (buffer : List Char)
    (chunks : List String) (hb : '\n' ∉ buffer) :
    streamRead env st buffer chunks =
      match processLines env st ((splitNlP (buffer ++ joinData chunks)).1.map String.mk) with
      | .found st' p => (.ok p, st')
      | .cont st' => (.error sseEndedErr, st') := by
  induction chunks generalizing st buffer with
  | nil =>
    simp [streamRead, joinData, splitNlP_of_noNl buffer hb, processLines]
  | cons ch rest ih =>
    have hfrag := splitNlP_frag_noNl (buffer ++ ch.data)
    have key : (splitNlP (buffer ++ joinData (ch :: rest))).1
        = (splitNlP (buffer ++ ch.data)).1
          ++ (splitNlP ((splitNlP (buffer ++ ch.data)).2 ++ joinData rest)).1 := by
      rw [joinData_cons, ← List.append_assoc,
        splitNlP_append (buffer ++ ch.data) (joinData rest),
        splitNlP_append ((splitNlP (buffer ++ ch.data)).2) (joinData rest),
        splitNlP_of_noNl _ hfrag]
      simp
    show (match processLines env st ((splitNlP (buffer ++ ch.data)).1.map String.mk) with
      | .found st' payload => (Except.ok payload, st')
      | .cont st' => streamRead env st' (splitNlP (buffer ++ ch.data)).2 rest) = _
    rw [key, List.map_append,
      processLines_append env st ((splitNlP (buffer ++ ch.data)).1.map String.mk)]
    cases hpl : processLines env st ((splitNlP (buffer ++ ch.data)).1.map String.mk) with
    | found st' p => rfl
    | cont st' => exact ih st' (splitNlP (buffer ++ ch.data)).2 hfrag

/-- The event-stream branch of `fetchMcp`, characterised over the complete
lines of the whole chunk sequence. -/
theorem fetchMcp_stream (env : JsEnv) (st : PState) (r : Resp)
    (hok : r.ok = true) (hct : strContains r.contentType "text/event-stream" = true) :
    fetchMcp env st r =
      match processLines env (headerCapture st r) (completeLines r.chunks) with
      | .found st' p => (.ok p, st')
      | .cont st' => (.error sseEndedErr, st') := by
  unfold fetchMcp
  rw [hok, hct]
  simp only [Bool.not_true, Bool.false_eq_true, if_false, if_true]
  have := streamRead_eq env (headerCapture st r) [] r.chunks (by simp)
  simpa [completeLines] using this

/-- The answer of the event-stream branch is the first complete
marker-prefixed record whose parsed payload has a truthy `result` or
`error` field; `sseEndedErr` when there is none. -/
theorem fetchMcp_stream_result (env : JsEnv) (st : PState) (r : Resp)
    (hok : r.ok = true) (hct : strContains r.contentType "text/event-stream" = true) :
    (fetchMcp env st r).1 =
      match (completeLines r.chunks).findSome? (terminalPayload env.parse) with
      | some p => .ok p
      | none => .error sseEndedErr := by
  rw [fetchMcp_stream env st r hok hct]
  rw [← processLines_payload env (headerCapture st r) (completeLines r.chunks)]
  cases hpl : processLines env (headerCapture st r) (completeLines r.chunks) <;>
    simp [lineStepPayload]

/-! ## Claim theorems -/

/-- **C3, counterexample.**  The claim states that the first record whose
payload *contains* a `result` field is returned as the answer "including
payloads whose `result` field holds a falsy JSON value such as null, 0,
false, or the empty string".  The stream below delivers one complete
record `data: \x7b"result":0\x7d`; its payload contains a `result` field
(second conjunct), yet the code's truthiness test `data.result ||
data.error` skips it and the call fails with the protocol error instead of
returning the record. -/
theorem spec2_c3_counterexample :
    (fetchMcp fixtureEnv ⟨false, none, none⟩ falsyStreamResp).1 = .error sseEndedErr
    ∧ jGet falsyResultJson "result" = some (.num 0) :=
  ⟨rfl, rfl⟩

/-- **C3 (amended).**  For every chunk sequence, the event-stream reader
returns the first complete `"data: "`-prefixed record whose JSON payload
has a *truthy* `result` or a truthy `error` field (records whose `result`
is falsy — null, 0, false, "" — and whose `error` is falsy or absent are
skipped), and fails with `"Upstream SSE stream ended without a result"`
when no such record exists. -/
theorem spec2_c3_theorem (env : JsEnv) (st : PState) (r : Resp)
    (hok : r.ok = true) (hct : strContains r.contentType "text/event-stream" = true) :
    (fetchMcp env st r).1 =
      match (completeLines r.chunks).findSome? (terminalPayload env.parse) with
      | some p => .ok p
      | none => .error sseEndedErr :=
  fetchMcp_stream_result env st r hok hct

/-- **C3, witness.**  The spec's stream-reconstruction example: the record
split as `data: \x7b"jsonrpc":"2.0","id":"1","resu` + `lt":\x7b"foo":1\x7d\x7d\n\n`
is reassembled and its payload returned. -/
theorem spec2_c3_witness :
    (fetchMcp fixtureEnv ⟨false, none, none⟩ twoChunkResp).1 = .ok fooJson := by
  rw [spec2_c3_theorem fixtureEnv ⟨false, none, none⟩ twoChunkResp rfl rfl]
  rfl

/-- **C8, counterexample.**  The claim states that a marker-prefixed
event-stream record whose payload fails to parse as JSON "results in a
protocol error rather than being skipped".  Below, the malformed record
`data: notjson` is silently skipped and the call succeeds with the next
record's result — no protocol error is raised. -/
theorem spec2_c8_counterexample :
    (fetchMcp fixtureEnv ⟨false, none, none⟩ malformedStreamResp).1 = .ok oneResultJson :=
  rfl

/-- **C8 (amended).**  Malformed JSON is surfaced as an error only on the
plain-JSON path (the rejection of `res.json()`); on the event-stream path a
marker-prefixed record whose payload fails to parse is swallowed by the
empty `catch` and has no effect on the outcome: deleting it from the line
sequence leaves the result unchanged. -/
theorem spec2_c8_theorem :
    (∀ (env : JsEnv) (st : PState) (r : Resp),
      r.ok = true → strContains r.contentType "text/event-stream" = false →
      env.parse (bodyText r) = none →
      (fetchMcp env st r).1 = .error ⟨env.parseErrMsg (bodyText r), none, none, none⟩)
    ∧ (∀ (env : JsEnv) (st₁ st₂ : PState) (r₁ r₂ : Resp) (pre post : List String)
        (line : String),
      r₁.ok = true → r₂.ok = true →
      strContains r₁.contentType "text/event-stream" = true →
      strContains r₂.contentType "text/event-stream" = true →
      completeLines r₁.chunks = pre ++ line :: post →
      completeLines r₂.chunks = pre ++ post →
      env.parse (jsTrim (line.drop 6)) = none →
      (fetchMcp env st₁ r₁).1 = (fetchMcp env st₂ r₂).1) := by
  constructor
  · intro env st r hok hct hparse
    unfold fetchMcp
    rw [hok]
    simp [hct, hparse]
  · intro env st₁ st₂ r₁ r₂ pre post line h1 h2 h3 h4 h5 h6 hline
    rw [fetchMcp_stream_result env st₁ r₁ h1 h3,
      fetchMcp_stream_result env st₂ r₂ h2 h4, h5, h6]
    have hterm : terminalPayload env.parse line = none := by
      unfold terminalPayload
      by_cases hd : strStarts line "data: " = true
      · simp [hd, hline]
      · simp [hd]
    rw [List.findSome?_append, List.findSome?_append]
    simp [List.findSome?_cons, hterm]

/-- **C8, witness.**  Instances of both parts of the amended claim: a
plain-JSON body that fails to parse is surfaced as the `res.json()`
rejection, and deleting the malformed record from the two-record stream
leaves the result unchanged. -/
theorem spec2_c8_witness :
    (fetchMcp fixtureEnv ⟨false, none, none⟩
        ⟨true, 200, none, "application/json", ["notjson"]⟩).1
      = .error ⟨"Unexpected token", none, none, none⟩
    ∧ (fetchMcp fixtureEnv ⟨false, none, none⟩ malformedStreamResp).1
        = (fetchMcp fixtureEnv ⟨false, none, none⟩ cleanStreamResp).1 := by
  constructor
  · exact (spec2_c8_theorem.1 fixtureEnv ⟨false, none, none⟩
      ⟨true, 200, none, "application/json", ["notjson"]⟩ rfl rfl rfl).trans rfl
  · exact spec2_c8_theorem.2 fixtureEnv ⟨false, none, none⟩ ⟨false, none, none⟩
      malformedStreamResp cleanStreamResp [] ["data: " ++ oneResultText]
      "data: notjson" rfl rfl rfl rfl rfl rfl rfl

/-! ## Session capture (C7, C10) -/

theorem jsStrictEq_eq {a b : Json} (h : jsStrictEq a b = true) : a = b := by
  cases a <;> cases b <;> simp_all [jsStrictEq]

theorem saveSessionToCache_sets (st : PState) (sid : Json) (h : jTruthy sid = true) :
    (saveSessionToCache st sid).upstreamSessionId = some sid := by
  unfold saveSessionToCache
  rw [h]
  simp only [Bool.not_true, Bool.false_eq_true, if_false]
  by_cases hs : sameSessionId st sid = true
  · rw [if_pos hs]
    unfold sameSessionId at hs
    cases hv : st.upstreamSessionId with
    | none => rw [hv] at hs; exact absurd hs (by simp)
    | some v =>
      rw [hv] at hs
      have hsv : jsStrictEq sid v = true := hs
      exact congrArg some (jsStrictEq_eq hsv).symm
  · rw [if_neg hs]
    cases sid <;> rfl

theorem headerCapture_session (st : PState) (r : Resp) (T : String)
    (hT : r.headerSession = some T) (hne : T ≠ "") :
    (headerCapture st r).upstreamSessionId = some (.str T) := by
  unfold headerCapture
  rw [hT]
  show (if T ≠ "" then saveSessionToCache st (Json.str T) else st).upstreamSessionId
    = some (Json.str T)
  rw [if_pos hne]
  exact saveSessionToCache_sets st (.str T) (by simp [jTruthy, hne])

/-- **C7.**  A session token present in the `mcp-session-id` response header
is adopted as the active session regardless of body format (plain JSON or
event stream) and regardless of HTTP success or failure — in particular for
a plain-JSON `error` envelope.  The hypothesis `bodySessionFree` excludes
only bodies that carry their own (later-processed) `result.sessionId`
token. -/
theorem spec2_c7_theorem (env : JsEnv) (st : PState) (r : Resp) (T : String)
    (hT : r.headerSession = some T) (hne : T ≠ "")
    (hfree : bodySessionFree env r = true) :
    ((fetchMcp env st r).2).upstreamSessionId = some (.str T) := by
  have hhdr := headerCapture_session st r T hT hne
  by_cases hok : r.ok = true
  · by_cases hct : strContains r.contentType "text/event-stream" = true
    · rw [fetchMcp_stream env st r hok hct]
      have hall : ∀ l ∈ completeLines r.chunks, lineSidFree env.parse l = true := by
        have hb := hfree
        simp only [bodySessionFree, hok, Bool.not_true, Bool.false_eq_true, if_false,
          hct, if_true] at hb
        exact List.all_eq_true.mp hb
      have hst := processLines_state env (headerCapture st r) (completeLines r.chunks) hall
      cases hpl : processLines env (headerCapture st r) (completeLines r.chunks) with
      | found st' p =>
        rw [hpl] at hst
        simp only [lineStepState] at hst
        simpa [hst] using hhdr
      | cont st' =>
        rw [hpl] at hst
        simp only [lineStepState] at hst
        simpa [hst] using hhdr
    · have hctf : strContains r.contentType "text/event-stream" = false := by
        simpa using hct
      unfold fetchMcp
      rw [hok, hctf]
      simp only [Bool.not_true, Bool.false_eq_true, if_false]
      cases hparse : env.parse (bodyText r) with
      | none => exact hhdr
      | some d =>
        have hsid : jTruthyOpt (sessionIdOf d) = false := by
          have hb := hfree
          simp only [bodySessionFree, hok, Bool.not_true, Bool.false_eq_true, if_false,
            hctf, hparse, Bool.not_eq_true'] at hb
          exact hb
        simpa [applyBodySession_free _ d hsid] using hhdr
  · have hokf : r.ok = false := by simpa using hok
    unfold fetchMcp
    rw [hokf]
    simpa using hhdr

/-- **C7, witness.**  A plain-JSON response whose body is an `error`
envelope, carrying the new token `"tok2"` in the header, updates the active
session from `"old"` to `"tok2"`. -/
theorem spec2_c7_witness :
    ((fetchMcp fixtureEnv ⟨true, some (.str "old"), some "old"⟩ hdrErrResp).2).upstreamSessionId
      = some (.str "tok2") :=
  spec2_c7_theorem fixtureEnv ⟨true, some (.str "old"), some "old"⟩ hdrErrResp "tok2"
    rfl (by decide) (by rfl)

/-- A token strictly equal (`===`) to the stored one leaves the whole
state unchanged. -/
theorem saveSessionToCache_same (st : PState) (sid : Json)
    (he : sameSessionId st sid = true) : saveSessionToCache st sid = st := by
  unfold saveSessionToCache
  rw [he]
  cases h : jTruthy sid <;> simp [h]

/-- A truthy string token that differs from the stored one is written to
the cache file. -/
theorem saveSessionToCache_cache_str (st : PState) (s : String)
    (ht : jTruthy (Json.str s) = true) (hdiff : sameSessionId st (.str s) = false) :
    (saveSessionToCache st (.str s)).sessionCache = some s := by
  unfold saveSessionToCache
  rw [ht, hdiff]
  simp

/-- **C10.**  A truthy `result.sessionId` in a successful response's
envelope is adopted as the in-memory session token — for a plain-JSON body
and for the terminal record of an event stream alike — and a (string)
token that differs (`!==`) from the current one is persisted to the cache
file, while a token equal to the current one leaves the state untouched.
Both body formats carry all four conclusions. -/
theorem spec2_c10_theorem :
    (∀ (env : JsEnv) (st : PState) (r : Resp) (d sid : Json),
      r.ok = true → r.headerSession = none →
      strContains r.contentType "text/event-stream" = false →
      env.parse (bodyText r) = some d →
      sessionIdOf d = some sid → jTruthy sid = true →
      (fetchMcp env st r).1 = .ok d
      ∧ ((fetchMcp env st r).2).upstreamSessionId = some sid
      ∧ (∀ s, sid = .str s → sameSessionId st sid = false →
          (fetchMcp env st r).2.sessionCache = some s)
      ∧ (sameSessionId st sid = true → (fetchMcp env st r).2 = st))
    ∧ (∀ (env : JsEnv) (st : PState) (r : Resp) (pre post : List String)
        (line : String) (p sid : Json),
      r.ok = true → r.headerSession = none →
      strContains r.contentType "text/event-stream" = true →
      completeLines r.chunks = pre ++ line :: post →
      (∀ l ∈ pre, terminalPayload env.parse l = none ∧ lineSidFree env.parse l = true) →
      strStarts line "data: " = true →
      env.parse (jsTrim (line.drop 6)) = some p →
      (jTruthyOpt (jGet p "result") || jTruthyOpt (jGet p "error")) = true →
      sessionIdOf p = some sid → jTruthy sid = true →
      (fetchMcp env st r).1 = .ok p
      ∧ ((fetchMcp env st r).2).upstreamSessionId = some sid
      ∧ (∀ s, sid = .str s → sameSessionId st sid = false →
          (fetchMcp env st r).2.sessionCache = some s)
      ∧ (sameSessionId st sid = true → (fetchMcp env st r).2.sessionCache
          = st.sessionCache)) := by
  constructor
  · intro env st r d sid hok hhdr hct hparse hsid htruthy
    have hhc : headerCapture st r = st := by unfold headerCapture; rw [hhdr]
    have happ : applyBodySession st d = saveSessionToCache st sid := by
      unfold applyBodySession
      simp [hsid, htruthy]
    have key : fetchMcp env st r = (.ok d, saveSessionToCache st sid) := by
      unfold fetchMcp
      rw [hok, hct]
      simp only [Bool.not_true, Bool.false_eq_true, if_false, hhc, hparse, happ]
    refine ⟨by rw [key], by rw [key]; exact saveSessionToCache_sets st sid htruthy, ?_, ?_⟩
    · intro s hs hne
      subst hs
      rw [key]
      exact saveSessionToCache_cache_str st s htruthy hne
    · intro heq
      rw [key]
      exact saveSessionToCache_same st sid heq
  · intro env st r pre post line p sid hok hhdr hct hsplit hpre hstart hparse htr hsid htruthy
    have hhc : headerCapture st r = st := by unfold headerCapture; rw [hhdr]
    have happ : applyBodySession st p = saveSessionToCache st sid := by
      unfold applyBodySession
      simp [hsid, htruthy]
    have hfound : processLines env st (line :: post) = .found (saveSessionToCache st sid) p := by
      unfold processLines
      rw [hstart]
      simp only [if_true, hparse, htr, happ]
    have key : fetchMcp env st r = (.ok p, saveSessionToCache st sid) := by
      rw [fetchMcp_stream env st r hok hct, hhc, hsplit, processLines_append env st pre,
        processLines_cont env st pre hpre]
      simp [hfound]
    refine ⟨by rw [key], by rw [key]; exact saveSessionToCache_sets st sid htruthy, ?_, ?_⟩
    · intro s hs hne
      subst hs
      rw [key]
      exact saveSessionToCache_cache_str st s htruthy hne
    · intro heq
      rw [key]
      rw [saveSessionToCache_same st sid heq]

/-- **C10, witness.**  The envelope `result.sessionId = "S1"` received
while the active token is `"old"`, once as a plain-JSON body and once as
the terminal record of an event stream: in both formats the result is
returned, `"S1"` becomes the active token and is persisted to the cache
file. -/
theorem spec2_c10_witness :
    (fetchMcp fixtureEnv ⟨true, some (.str "old"), some "old"⟩ sidBodyResp).1 = .ok sidBodyJson
    ∧ ((fetchMcp fixtureEnv ⟨true, some (.str "old"), some "old"⟩
        sidBodyResp).2).upstreamSessionId = some (.str "S1")
    ∧ (fetchMcp fixtureEnv ⟨true, some (.str "old"), some "old"⟩ sidBodyResp).2.sessionCache
        = some "S1"
    ∧ (fetchMcp fixtureEnv ⟨true, some (.str "old"), some "old"⟩ sidStreamResp).1
        = .ok sidBodyJson
    ∧ ((fetchMcp fixtureEnv ⟨true, some (.str "old"), some "old"⟩
        sidStreamResp).2).upstreamSessionId = some (.str "S1")
    ∧ (fetchMcp fixtureEnv ⟨true, some (.str "old"), some "old"⟩ sidStreamResp).2.sessionCache
        = some "S1" := by
  obtain ⟨h1, h2, h3, _⟩ := spec2_c10_theorem.1 fixtureEnv
    ⟨true, some (.str "old"), some "old"⟩ sidBodyResp sidBodyJson (.str "S1")
    rfl rfl rfl rfl rfl rfl
  obtain ⟨g1, g2, g3, _⟩ := spec2_c10_theorem.2 fixtureEnv
    ⟨true, some (.str "old"), some "old"⟩ sidStreamResp []
    [] ("data: " ++ sidBodyText) sidBodyJson (.str "S1")
    rfl rfl rfl rfl (fun l hl => absurd hl (List.not_mem_nil l))
    rfl rfl rfl rfl rfl
  exact ⟨h1, h2, h3 "S1" rfl rfl, g1, g2, g3 "S1" rfl rfl⟩

/-! ## Error classification (C4) -/

/-- **C4, counterexample.**  The claim asserts one total classification
function applied at every site.  The error message `"expired"` (no status,
no code) is a `SessionError` under the stated rule and under the
forward-path tests, but *not* under the handshake-path test (which lacks
the `"expired"` substring); a thrown error with code `-32000` and a neutral
message is a `SessionError` under the stated rule but not under the
forward catch-path test (which never inspects `err.code`). -/
theorem spec2_c4_counterexample :
    initSessionTest ⟨"expired", none, none, none⟩ = false
    ∧ catchSessionTest ⟨"expired", none, none, none⟩ = true
    ∧ specSessionError ⟨"expired", none, none, none⟩ = true
    ∧ catchSessionTest ⟨"boom", some 500, some (.num (-32000)), none⟩ = false
    ∧ specSessionError ⟨"boom", some 500, some (.num (-32000)), none⟩ = true :=
  ⟨rfl, rfl, rfl, rfl, rfl⟩

/-- **C4 (amended).**  The three sites classify with three *different*
tests, each an under-approximation of the stated rule: the forward
catch-path test is the handshake-path test plus the `"expired"` substring;
the stated rule is the catch-path test plus the sentinel code `-32000`;
and the envelope-path test is the stated rule applied to an envelope's
message and code with no HTTP status. -/
theorem spec2_c4_theorem :
    (∀ e : ErrInfo,
      catchSessionTest e = (initSessionTest e || strContains (lowerMsg e) "expired"))
    ∧ (∀ e : ErrInfo,
      specSessionError e = (catchSessionTest e || isNumEq e.code (-32000)))
    ∧ (∀ errObj : Json, envelopeSessionTest errObj
        = specSessionError ⟨errMessageOf errObj, none, jGet errObj "code", none⟩) := by
  refine ⟨fun e => ?_, fun e => ?_, fun errObj => ?_⟩
  · simp only [catchSessionTest, initSessionTest]
    cases strContains (lowerMsg e) "not initialized" <;>
      cases strContains (lowerMsg e) "session" <;>
      cases strContains (lowerMsg e) "expired" <;>
      cases e.status == some 401 <;> cases e.status == some 406 <;> rfl
  · simp only [specSessionError, catchSessionTest]
    cases strContains (lowerMsg e) "not initialized" <;>
      cases strContains (lowerMsg e) "session" <;>
      cases strContains (lowerMsg e) "expired" <;>
      cases e.status == some 401 <;> cases e.status == some 406 <;>
      cases isNumEq e.code (-32000) <;> rfl
  · simp only [envelopeSessionTest, specSessionError, lowerMsg]
    cases strContains (lowerStr (errMessageOf errObj)) "not initialized" <;>
      cases strContains (lowerStr (errMessageOf errObj)) "session" <;>
      cases strContains (lowerStr (errMessageOf errObj)) "expired" <;>
      cases isNumEq (jGet errObj "code") (-32000) <;> rfl

/-! ## Timeout configuration (C2) -/

/-- **C2** records a code bug: the configured `MCP_TIMEOUT_MS` (default
15000) is read at startup but never wired into any request — the options
object built for `fetch` carries no abort signal, and the request is
entirely independent of the configured timeout, so no outbound exchange is
ever bounded or aborted by it. -/
theorem spec2_c2_theorem :
    ∀ (auth : String) (t₁ t₂ : Nat) (session : Option Json) (body : Json),
      mkFetchOptions ⟨auth, t₁⟩ session body = mkFetchOptions ⟨auth, t₂⟩ session body
      ∧ (mkFetchOptions ⟨auth, t₁⟩ session body).abortSignal = none :=
  fun _ _ _ _ _ => ⟨rfl, rfl⟩

/-! ## Retry bound (C1) -/

/-- **C1** records a code bug: with every forwarded send answered by the
session-classified error envelope (code `-32000`, message
`"session expired"`) and every handshake succeeding, a single
`forwardToHttpMcp` call performs **3** handshakes and **3** sends — the
terminal `throw` of the envelope branch sits inside the `try`, so the first
call's `catch` reclassifies the error propagated by the `retryCount = 1`
attempt and retries a second time, exceeding the claimed bound of 2
handshakes and 2 sends ("it never loops a third time"). -/
theorem spec2_c1_theorem :
    countHandshakes (forwardToHttpMcp fixtureEnv c1Oracle 0 freshTrace).2.events = 3
    ∧ countSends (forwardToHttpMcp fixtureEnv c1Oracle 0 freshTrace).2.events = 3
    ∧ (forwardToHttpMcp fixtureEnv c1Oracle 0 freshTrace).1
        = .error ⟨"session expired", none, some (.num (-32000)), none⟩ :=
  ⟨rfl, rfl, rfl⟩

/-! ## Concurrent initialization (C9) -/

/-- **C9, counterexample.**  The claim asserts that at most one real
handshake request is ever in flight and that two calls observing the
session as uninitialized never both perform the handshake.  Under the
schedule that runs each task up to its `initialize` fetch, both tasks
observe the clear flag and both issue the request: two handshakes are in
flight simultaneously. -/
theorem spec2_c9_counterexample :
    (runSched [false, true] cInit).log.length = 2
    ∧ inflight (runSched [false, true] cInit) = 2 :=
  ⟨rfl, rfl⟩

/-- **C9 (amended).**  Initialization is guarded only by the unguarded
boolean flag: a task that observes the flag set issues no handshake (once
set, no scheduling step ever issues another `initialize` request), but two
tasks that both observe the flag clear each independently issue their own
handshake, as the racing schedule exhibits. -/
theorem spec2_c9_theorem :
    (∀ (s : CState) (b : Bool), s.flag = true → (stepC s b).log = s.log)
    ∧ (runSched [false, true] cInit).log = [0, 1] := by
  refine ⟨fun s b hf => ?_, rfl⟩
  cases b
  · cases hpc : s.pc1 <;> simp [stepC, stepTask, hf, hpc]
  · cases hpc : s.pc2 <;> simp [stepC, stepTask, hf, hpc]

/-- **C9, witness.**  A task arriving after initialization completed steps
to completion without issuing a handshake. -/
theorem spec2_c9_witness :
    (stepC ⟨true, .start, .start, []⟩ false).log = ([] : List (Fin 2)) :=
  spec2_c9_theorem.1 ⟨true, .start, .start, []⟩ false rfl

/-! ## Error propagation (C5) -/

/-- `fetchMcp` on a successful plain-JSON response without session header:
the parsed envelope is returned. -/
theorem fetchMcp_json_ok (env : JsEnv) (st : PState) (r : Resp) (data : Json)
    (hok : r.ok = true) (hct : strContains r.contentType "text/event-stream" = false)
    (hhdr : r.headerSession = none) (hparse : env.parse (bodyText r) = some data) :
    fetchMcp env st r = (.ok data, applyBodySession st data) := by
  have hhc : headerCapture st r = st := by unfold headerCapture; rw [hhdr]
  unfold fetchMcp
  rw [hok, hct]
  simp only [Bool.not_true, Bool.false_eq_true, if_false, hhc, hparse]

/-- **C5, counterexample.**  The claim asserts that errors reach the
caller "with its original code, message, and data preserved unchanged",
including handshake failures.  Two refutations: (a) with every request
answered by the envelope error `code -32601, message "method not found"`,
the handshake fails and the caller receives
`"Upstream Init error: method not found"` with *no* code — message
rewritten, code dropped; (b) with a send answered by the envelope error
`code 0, message ""`, the caller receives `"Unknown upstream error"` with
no code — the falsy original message and code are not preserved either. -/
theorem spec2_c5_counterexample :
    (forwardToHttpMcp fixtureEnv mnfOracle 0 freshTrace).1
      = .error ⟨"Upstream Init error: method not found", none, none, none⟩
    ∧ "Upstream Init error: method not found" ≠ "method not found"
    ∧ (none : Option Json) ≠ some (.num (-32601))
    ∧ (forwardToHttpMcp fixtureEnv falsyErrOracle 0 readyTrace).1
        = .error ⟨"Unknown upstream error", none, none, none⟩
    ∧ "Unknown upstream error" ≠ ""
    ∧ (none : Option Json) ≠ some (.num 0) :=
  ⟨rfl, by decide, by simp, rfl, by decide, by simp⟩

/-- **C5 (amended).**  Forwarded-send errors are propagated to the caller
preserving the original fields up to the construction of source lines
301–304 — the message unless falsy (then `"Unknown upstream error"`), the
code and data only when truthy — and thrown transport errors are rethrown
unchanged: (1) a thrown non-session error at `retryCount = 0`; (2) an
envelope non-session error at `retryCount = 0`; (3)–(4) *any* thrown or
envelope error on the retry-exhausted attempt (`retryCount = 1`),
session-classified or not — so a Session Error on the second attempt is
propagated this same way; (5) after a session-classified transport failure
of the first send and a successful re-handshake, the second send's thrown
error reaches the caller verbatim.  Handshake failures are the exception:
(6) a handshake error envelope that is not "already initialized" reaches
the caller wrapped as `"Upstream Init error: <message>"`, and (7) an error
envelope from the handshake's internal retry as
`"Upstream Init Retry error: <message>"`, both with code and data
discarded. -/
theorem spec2_c5_theorem :
    (∀ (env : JsEnv) (o : Nat → UResp) (tr : Trace) (e : ErrInfo),
      tr.st.upstreamInitialized = true → o tr.idx = .netErr e →
      catchSessionTest e = false →
      (forwardToHttpMcp env o 0 tr).1 = .error e)
    ∧ (∀ (env : JsEnv) (o : Nat → UResp) (tr : Trace) (r : Resp) (data errObj : Json),
      tr.st.upstreamInitialized = true → o tr.idx = .resp r →
      r.ok = true → strContains r.contentType "text/event-stream" = false →
      r.headerSession = none → env.parse (bodyText r) = some data →
      errorFieldTruthy data = some errObj →
      envelopeSessionTest errObj = false →
      catchSessionTest (envelopeErr errObj) = false →
      (forwardToHttpMcp env o 0 tr).1 = .error (envelopeErr errObj))
    ∧ (∀ (env : JsEnv) (o : Nat → UResp) (tr : Trace) (e : ErrInfo),
      tr.st.upstreamInitialized = true → o tr.idx = .netErr e →
      (forwardToHttpMcp env o 1 tr).1 = .error e)
    ∧ (∀ (env : JsEnv) (o : Nat → UResp) (tr : Trace) (r : Resp) (data errObj : Json),
      tr.st.upstreamInitialized = true → o tr.idx = .resp r →
      r.ok = true → strContains r.contentType "text/event-stream" = false →
      r.headerSession = none → env.parse (bodyText r) = some data →
      errorFieldTruthy data = some errObj →
      (forwardToHttpMcp env o 1 tr).1 = .error (envelopeErr errObj))
    ∧ (∀ (env : JsEnv) (o : Nat → UResp) (tr : Trace) (e₁ e₂ : ErrInfo)
        (r : Resp) (d : Json),
      tr.st.upstreamInitialized = true →
      o tr.idx = .netErr e₁ → catchSessionTest e₁ = true →
      o (tr.idx + 1) = .resp r → o (tr.idx + 2) = .resp r →
      o (tr.idx + 3) = .netErr e₂ →
      r.ok = true → strContains r.contentType "text/event-stream" = false →
      r.headerSession = none → env.parse (bodyText r) = some d →
      errorFieldTruthy d = none → jTruthyOpt (sessionIdOf d) = false →
      (forwardToHttpMcp env o 0 tr).1 = .error e₂)
    ∧ (∀ (env : JsEnv) (o : Nat → UResp) (tr : Trace) (r : Resp) (data errObj : Json),
      tr.st.upstreamInitialized = false → o tr.idx = .resp r →
      r.ok = true → strContains r.contentType "text/event-stream" = false →
      r.headerSession = none → env.parse (bodyText r) = some data →
      errorFieldTruthy data = some errObj →
      strContains (lowerStr (errMessageOf errObj)) "already initialized" = false →
      strContains (lowerStr (errMessageOf errObj)) "already started" = false →
      strContains (lowerMsg ⟨"Upstream Init error: "
          ++ templateStr (jGet errObj "message"), none, none, none⟩)
        "already initialized" = false →
      initSessionTest ⟨"Upstream Init error: "
          ++ templateStr (jGet errObj "message"), none, none, none⟩ = false →
      (forwardToHttpMcp env o 0 tr).1
        = .error ⟨"Upstream Init error: "
            ++ templateStr (jGet errObj "message"), none, none, none⟩)
    ∧ (∀ (env : JsEnv) (o : Nat → UResp) (tr : Trace) (e₁ : ErrInfo) (r₂ : Resp)
        (data₂ errObj₂ : Json),
      tr.st.upstreamInitialized = false →
      o tr.idx = .netErr e₁ →
      strContains (lowerMsg e₁) "already initialized" = false →
      initSessionTest e₁ = true →
      o (tr.idx + 1) = .resp r₂ →
      r₂.ok = true → strContains r₂.contentType "text/event-stream" = false →
      r₂.headerSession = none → env.parse (bodyText r₂) = some data₂ →
      errorFieldTruthy data₂ = some errObj₂ →
      (forwardToHttpMcp env o 0 tr).1
        = .error ⟨"Upstream Init Retry error: "
            ++ templateStr (jGet errObj₂ "message"), none, none, none⟩) := by
  refine ⟨?_, ?_, ?_, ?_, ?_, ?_, ?_⟩
  · intro env o tr e hinit ho hc
    unfold forwardToHttpMcp forwardAttempt
    unfold ensureUpstreamInitialized
    rw [hinit]
    simp only [if_true, if_pos Nat.zero_lt_one, callFetch, ho, hc]
    simp
  · intro env o tr r data errObj hinit ho hok hct hhdr hparse herr henv hcatch
    unfold forwardToHttpMcp forwardAttempt
    unfold ensureUpstreamInitialized
    rw [hinit]
    simp only [if_true, if_pos Nat.zero_lt_one, callFetch, ho,
      fetchMcp_json_ok env tr.st r data hok hct hhdr hparse, herr, henv, hcatch]
    simp [henv, hcatch]
  · intro env o tr e hinit ho
    unfold forwardToHttpMcp forwardAttempt
    unfold ensureUpstreamInitialized
    rw [hinit]
    simp only [if_true, if_neg (Nat.lt_irrefl 1), callFetch, ho]
  · intro env o tr r data errObj hinit ho hok hct hhdr hparse herr
    unfold forwardToHttpMcp forwardAttempt
    unfold ensureUpstreamInitialized
    rw [hinit]
    simp only [if_true, if_neg (Nat.lt_irrefl 1), callFetch, ho,
      fetchMcp_json_ok env tr.st r data hok hct hhdr hparse, herr]
  · intro env o tr e₁ e₂ r d hinit ho1 hc1 ho2 ho3 ho4 hok hct hhdr hparse herr hsid
    have ho3' : o (tr.idx + 1 + 1) = .resp r := ho3
    have ho4' : o (tr.idx + 1 + 1 + 1) = .netErr e₂ := ho4
    have happ : ∀ st, applyBodySession st d = st := fun st => applyBodySession_free st d hsid
    unfold forwardToHttpMcp forwardAttempt
    unfold ensureUpstreamInitialized
    rw [hinit]
    simp only [if_true, if_pos Nat.zero_lt_one, callFetch, callNotify, ho1, hc1,
      clearSessionCache, ho2, ho3', ho4',
      fetchMcp_json_ok env _ r d hok hct hhdr hparse, happ, herr, setInitialized]
    simp [ho4']
  · intro env o tr r data errObj hinit ho hok hct hhdr hparse herr hai has hwai hwinit
    unfold forwardToHttpMcp forwardAttempt
    unfold ensureUpstreamInitialized
    rw [hinit]
    simp only [Bool.false_eq_true, if_false, if_pos Nat.zero_lt_one, callFetch, ho,
      fetchMcp_json_ok env tr.st r data hok hct hhdr hparse, herr]
    simp only [hai, has, Bool.or_self, Bool.false_eq_true, if_false]
    unfold initCatch
    simp only [hwai, Bool.false_eq_true, if_false, hwinit]
  · intro env o tr e₁ r₂ data₂ errObj₂ hinit ho1 hai1 hsess1 ho2 hok hct hhdr hparse herr
    unfold forwardToHttpMcp forwardAttempt
    unfold ensureUpstreamInitialized
    rw [hinit]
    simp only [Bool.false_eq_true, if_false, if_pos Nat.zero_lt_one, callFetch, ho1]
    unfold initCatch
    simp only [hai1, Bool.false_eq_true, if_false, hsess1, if_true, clearMemory,
      callFetch, ho2, fetchMcp_json_ok env _ r₂ data₂ hok hct hhdr hparse, herr]

/-- **C5, witness.**  The seven propagation shapes at concrete inputs: a
thrown `"boom"` network error rethrown unchanged; the `-32601` envelope
arriving with message and code preserved; the session-classified
`"session expired"` network error rethrown verbatim on the second attempt;
the session-classified `-32000` envelope arriving with message and code
preserved on the second attempt; after one recovery cycle, the second
send's `"session lost"` rejection reaching the caller verbatim; and the
two handshake wrappings. -/
theorem spec2_c5_witness :
    (forwardToHttpMcp fixtureEnv netErrOracle 0 readyTrace).1
      = .error ⟨"boom", none, none, none⟩
    ∧ (forwardToHttpMcp fixtureEnv mnfOracle 0 readyTrace).1
        = .error ⟨"method not found", none, some (.num (-32601)), none⟩
    ∧ (forwardToHttpMcp fixtureEnv sessNetOracle 1 readyTrace).1
        = .error ⟨"session expired", none, none, none⟩
    ∧ (forwardToHttpMcp fixtureEnv sessErrOracle 1 readyTrace).1
        = .error ⟨"session expired", none, some (.num (-32000)), none⟩
    ∧ (forwardToHttpMcp fixtureEnv c5RetryOracle 0 readyTrace).1
        = .error ⟨"session lost", none, none, none⟩
    ∧ (forwardToHttpMcp fixtureEnv mnfOracle 0 freshTrace).1
        = .error ⟨"Upstream Init error: method not found", none, none, none⟩
    ∧ (forwardToHttpMcp fixtureEnv c5InitRetryOracle 0 freshTrace).1
        = .error ⟨"Upstream Init Retry error: method not found", none, none, none⟩ := by
  refine ⟨?_, ?_, ?_, ?_, ?_, ?_, ?_⟩
  · exact spec2_c5_theorem.1 fixtureEnv netErrOracle readyTrace
      ⟨"boom", none, none, none⟩ rfl rfl rfl
  · exact (spec2_c5_theorem.2.1 fixtureEnv mnfOracle readyTrace
      ⟨true, 200, none, "application/json", [mnfText]⟩ mnfJson
      (.obj [("code", .num (-32601)), ("message", .str "method not found")])
      rfl rfl rfl rfl rfl rfl rfl rfl rfl).trans rfl
  · exact spec2_c5_theorem.2.2.1 fixtureEnv sessNetOracle readyTrace
      ⟨"session expired", none, none, none⟩ rfl rfl
  · exact (spec2_c5_theorem.2.2.2.1 fixtureEnv sessErrOracle readyTrace
      ⟨true, 200, none, "application/json", [sessErrText]⟩ sessErrJson
      (.obj [("code", .num (-32000)), ("message", .str "session expired")])
      rfl rfl rfl rfl rfl rfl rfl).trans rfl
  · exact spec2_c5_theorem.2.2.2.2.1 fixtureEnv c5RetryOracle readyTrace
      ⟨"session expired", none, none, none⟩ ⟨"session lost", none, none, none⟩
      ⟨true, 200, none, "application/json", [okInitText]⟩ okInitJson
      rfl rfl rfl rfl rfl rfl rfl rfl rfl rfl rfl rfl
  · exact (spec2_c5_theorem.2.2.2.2.2.1 fixtureEnv mnfOracle freshTrace
      ⟨true, 200, none, "application/json", [mnfText]⟩ mnfJson
      (.obj [("code", .num (-32601)), ("message", .str "method not found")])
      rfl rfl rfl rfl rfl rfl rfl rfl rfl rfl rfl).trans rfl
  · exact (spec2_c5_theorem.2.2.2.2.2.2 fixtureEnv c5InitRetryOracle freshTrace
      ⟨"session expired", none, none, none⟩
      ⟨true, 200, none, "application/json", [mnfText]⟩ mnfJson
      (.obj [("code", .num (-32601)), ("message", .str "method not found")])
      rfl rfl rfl rfl rfl rfl rfl rfl rfl rfl).trans rfl

/-! ## Session reuse across sequential calls (C6) -/

/-- A forwarded call in a `Ready` process against a neutral upstream: one
send carrying the current truthy token, state unchanged. -/
theorem forward_neutral_ready (env : JsEnv) (o : Nat → UResp) (r : Resp) (d : Json)
    (ho : ∀ i, o i = .resp r) (hok : r.ok = true)
    (hct : strContains r.contentType "text/event-stream" = false)
    (hhdr : r.headerSession = none) (hparse : env.parse (bodyText r) = some d)
    (herr : errorFieldTruthy d = none) (hsid : jTruthyOpt (sessionIdOf d) = false)
    (T : Json) (hT : jTruthy T = true) (c : Option String) (i : Nat) (evs : List Ev) :
    forwardToHttpMcp env o 0 ⟨⟨true, some T, c⟩, i, evs⟩
      = (.ok (jGet d "result"),
         ⟨⟨true, some T, c⟩, i + 1, evs ++ [Ev.send (some T)]⟩) := by
  have happ : ∀ st, applyBodySession st d = st := fun st => applyBodySession_free st d hsid
  unfold forwardToHttpMcp forwardAttempt
  unfold ensureUpstreamInitialized
  simp only [if_pos Nat.zero_lt_one, if_true, callFetch, ho,
    fetchMcp_json_ok env _ r d hok hct hhdr hparse, happ, herr, reqSession, hT]

/-- The first forwarded call of an uninitialized process against a neutral
upstream: one handshake, the notification, one send — all carrying the
preloaded truthy token, which the handshake leaves unchanged. -/
theorem forward_neutral_first (env : JsEnv) (o : Nat → UResp) (r : Resp) (d : Json)
    (ho : ∀ i, o i = .resp r) (hok : r.ok = true)
    (hct : strContains r.contentType "text/event-stream" = false)
    (hhdr : r.headerSession = none) (hparse : env.parse (bodyText r) = some d)
    (herr : errorFieldTruthy d = none) (hsid : jTruthyOpt (sessionIdOf d) = false)
    (T : Json) (hT : jTruthy T = true) (c : Option String) (i : Nat) (evs : List Ev) :
    forwardToHttpMcp env o 0 ⟨⟨false, some T, c⟩, i, evs⟩
      = (.ok (jGet d "result"),
         ⟨⟨true, some T, c⟩, i + 3,
          evs ++ [Ev.handshake (some T), Ev.notify (some T), Ev.send (some T)]⟩) := by
  have happ : ∀ st, applyBodySession st d = st := fun st => applyBodySession_free st d hsid
  unfold forwardToHttpMcp forwardAttempt
  unfold ensureUpstreamInitialized
  simp only [if_pos Nat.zero_lt_one, Bool.false_eq_true, if_false, callFetch, callNotify, ho,
    fetchMcp_json_ok env _ r d hok hct hhdr hparse, happ, herr, reqSession, hT,
    setInitialized]
  simp [List.append_assoc]

/-- Steady state: `n` further calls are `n` sends. -/
theorem runCalls_neutral (env : JsEnv) (o : Nat → UResp) (r : Resp) (d : Json)
    (ho : ∀ i, o i = .resp r) (hok : r.ok = true)
    (hct : strContains r.contentType "text/event-stream" = false)
    (hhdr : r.headerSession = none) (hparse : env.parse (bodyText r) = some d)
    (herr : errorFieldTruthy d = none) (hsid : jTruthyOpt (sessionIdOf d) = false)
    (T : Json) (hT : jTruthy T = true) (c : Option String) :
    ∀ (n i : Nat) (evs : List Ev),
      runCalls env o n ⟨⟨true, some T, c⟩, i, evs⟩
        = ⟨⟨true, some T, c⟩, i + n, evs ++ List.replicate n (Ev.send (some T))⟩ := by
  intro n
  induction n with
  | zero => intro i evs; simp [runCalls]
  | succ n ih =>
    intro i evs
    unfold runCalls
    rw [forward_neutral_ready env o r d ho hok hct hhdr hparse herr hsid T hT c i evs]
    rw [ih (i + 1) (evs ++ [Ev.send (some T)])]
    simp [List.replicate_succ]
    omega

/-- **C6 (amended).**  Against a neutral upstream, `N+1` sequential
forwarded calls from a fresh process holding token `T` issue exactly **one**
handshake — *even when `T` was preloaded*, since neither the
`MCP_SESSION_ID` variable nor the cache file sets `upstreamInitialized` —
and `N+1` sends, every send carrying `T`; zero handshakes occur only when
the in-process initialized flag is already set. -/
theorem spec2_c6_theorem (env : JsEnv) (o : Nat → UResp) (r : Resp) (d : Json)
    (T : Json) (c : Option String) (N : Nat)
    (ho : ∀ i, o i = .resp r) (hok : r.ok = true)
    (hct : strContains r.contentType "text/event-stream" = false)
    (hhdr : r.headerSession = none) (hparse : env.parse (bodyText r) = some d)
    (herr : errorFieldTruthy d = none) (hsid : jTruthyOpt (sessionIdOf d) = false)
    (hT : jTruthy T = true) :
    countHandshakes (runCalls env o (N + 1) ⟨⟨false, some T, c⟩, 0, []⟩).events = 1
    ∧ countSends (runCalls env o (N + 1) ⟨⟨false, some T, c⟩, 0, []⟩).events = N + 1
    ∧ (runCalls env o (N + 1) ⟨⟨false, some T, c⟩, 0, []⟩).events
        = Ev.handshake (some T) :: Ev.notify (some T)
          :: List.replicate (N + 1) (Ev.send (some T))
    ∧ (runCalls env o (N + 1) ⟨⟨false, some T, c⟩, 0, []⟩).st = ⟨true, some T, c⟩
    ∧ countHandshakes (runCalls env o N ⟨⟨true, some T, c⟩, 0, []⟩).events = 0 := by
  have hrun : runCalls env o (N + 1) ⟨⟨false, some T, c⟩, 0, []⟩
      = ⟨⟨true, some T, c⟩, 3 + N,
         [Ev.handshake (some T), Ev.notify (some T), Ev.send (some T)]
           ++ List.replicate N (Ev.send (some T))⟩ := by
    unfold runCalls
    rw [forward_neutral_first env o r d ho hok hct hhdr hparse herr hsid T hT c 0 []]
    rw [runCalls_neutral env o r d ho hok hct hhdr hparse herr hsid T hT c N 3
      ([] ++ [Ev.handshake (some T), Ev.notify (some T), Ev.send (some T)])]
    simp
  have hrun0 : runCalls env o N ⟨⟨true, some T, c⟩, 0, []⟩
      = ⟨⟨true, some T, c⟩, N, List.replicate N (Ev.send (some T))⟩ := by
    rw [runCalls_neutral env o r d ho hok hct hhdr hparse herr hsid T hT c N 0 []]
    simp
  refine ⟨?_, ?_, ?_, ?_, ?_⟩
  · rw [hrun]
    simp [countHandshakes, List.countP_cons, List.countP_replicate]
  · rw [hrun]
    simp [countSends, List.countP_cons, List.countP_replicate]
  · rw [hrun]
    simp [List.replicate_succ]
  · rw [hrun]
  · rw [hrun0]
    simp [countHandshakes, List.countP_replicate]

/-- **C6, counterexample.**  The claim asserts *zero* handshakes when the
token was preloaded (from `MCP_SESSION_ID` or the cache file).  A fresh
process preloaded with token `"T"` still performs one handshake on its
first forwarded call, because loading the token never sets
`upstreamInitialized`. -/
theorem spec2_c6_counterexample :
    countHandshakes (runCalls fixtureEnv neutralOracle 1
        ⟨⟨false, some (.str "T"), some "T"⟩, 0, []⟩).events = 1
    ∧ countHandshakes (runCalls fixtureEnv neutralOracle 1
        ⟨⟨false, some (.str "T"), some "T"⟩, 0, []⟩).events ≠ 0 :=
  ⟨rfl, by decide⟩

/-- **C6, witness.**  Two sequential calls with preloaded token `"T"`
against the neutral upstream: one handshake and two sends. -/
theorem spec2_c6_witness :
    countHandshakes (runCalls fixtureEnv neutralOracle 2
        ⟨⟨false, some (.str "T"), some "T"⟩, 0, []⟩).events = 1
    ∧ countSends (runCalls fixtureEnv neutralOracle 2
        ⟨⟨false, some (.str "T"), some "T"⟩, 0, []⟩).events = 2 := by
  obtain ⟨h1, h2, _, _, _⟩ := spec2_c6_theorem fixtureEnv neutralOracle
    ⟨true, 200, none, "application/json", [okInitText]⟩ okInitJson (.str "T") (some "T") 1
    (fun i => rfl) rfl rfl rfl rfl rfl rfl rfl
  exact ⟨h1, h2⟩

end McpProxy
